import Mathlib

/-!
Shallow embedding of the vertex-gcp-proxy core: the API-key gate, the
request mapper, the unary response mappers and the streaming relays of the
two transport variants.

Sources:
- gRPC variant: `src/src/server.ts` (handlers `chat`, `streamChat`,
  helpers `checkApiKey`, `mapProtoHistoryToVertex`, startup validation).
- HTTP/Express variant: the compiled server embedded in
  `src/CONTRIBUTING.md` lines 56-311 (`apiKeyMiddleware`,
  `app.post('/v1/chat')`, `app.post('/v1/chat/stream')`,
  `app.get('/_health')`, startup validation).

Modelling conventions: a JavaScript value that may be `undefined`/`null`
or a string is `Option String`; JavaScript string truthiness (`if (s)`)
is `strTruthy` (absent or empty is falsy); arrays that may be absent are
`Option (List _)` (an empty array is truthy in JS, hence the explicit
`.length > 0` checks of the source are kept).
-/

namespace VertexProxy

/-- JavaScript truthiness of a possibly-absent string: `undefined`, `null`
and `""` are falsy, every other string is truthy. -/
def strTruthy : Option String → Bool
  | none => false
  | some s => !s.isEmpty

/-- JavaScript `x || null` on a possibly-absent string: keeps the string
when truthy, collapses `""`/absent to `null`. -/
def truthyOrNull : Option String → Option String
  | none => none
  | some s => if s.isEmpty then none else some s

/-! ## Backend (Vertex AI SDK) response shapes

These mirror the fields of `GenerateContentResponse` that the proxy
inspects. A part's `text` is `Option String`: `none` models a part whose
`text` is absent or not a string (`typeof part.text === 'string'` fails).
`safetyRatings` is never inspected by the proxy, only copied through, so
it is carried opaquely as `Option String`. -/

structure BPart where
  text : Option String
deriving DecidableEq, Repr

structure BContent where
  role : Option String
  parts : Option (List BPart)
deriving DecidableEq, Repr

structure BCandidate where
  content : Option BContent
  finishReason : Option String
  safetyRatings : Option String
deriving DecidableEq, Repr

structure PromptFeedback where
  blockReason : Option String
deriving DecidableEq, Repr

structure GenResponse where
  candidates : Option (List BCandidate)
  promptFeedback : Option PromptFeedback
deriving DecidableEq, Repr

/-- Condition `generationResponse && generationResponse.candidates &&
generationResponse.candidates.length > 0` guarding the mapping branch of
both unary handlers (server.ts line 121, CONTRIBUTING.md line 152). -/
def hasBackendCandidates : Option GenResponse → Bool
  | none => false
  | some r =>
    match r.candidates with
    | none => false
    | some l => l.length > 0

/-- Access path `generationResponse?.promptFeedback?.blockReason`
(server.ts line 133, CONTRIBUTING.md line 185). -/
def blockReasonOf : Option GenResponse → Option String
  | none => none
  | some r =>
    match r.promptFeedback with
    | none => none
    | some f => f.blockReason

/-- Fallback text shared by both unary handlers: starts as
`'Sorry, I could not generate a response.'` and is replaced by
`'Response blocked: ' + blockReason` when the block reason is truthy
(server.ts lines 132-136, CONTRIBUTING.md lines 185-191). -/
def fallbackMessage (r : Option GenResponse) : String :=
  if strTruthy (blockReasonOf r) then
    match blockReasonOf r with
    | some s => "Response blocked: " ++ s
    | none => "Sorry, I could not generate a response."
  else
    "Sorry, I could not generate a response."

/-! ## HTTP unary response mapper (CONTRIBUTING.md lines 150-194) -/

structure ClientPart where
  text : String
deriving DecidableEq, Repr

structure ClientContent where
  role : Option String
  parts : List ClientPart
deriving DecidableEq, Repr

structure ClientCandidate where
  content : Option ClientContent
  finishReason : Option String
  safetyRatings : Option String
deriving DecidableEq, Repr

structure ClientResponse where
  candidates : List ClientCandidate
deriving DecidableEq, Repr

/-- Inner loop of the HTTP per-candidate mapping (CONTRIBUTING.md lines
160-165): `mappedParts` collects exactly the parts whose `text` is a
string (`typeof part.text === 'string'`), in order. -/
def httpTextParts (ps : List BPart) : List ClientPart :=
  ps.filterMap fun p =>
    match p.text with
    | some t => some { text := t }
    | none => none

/-- Per-candidate mapping of the HTTP unary handler (CONTRIBUTING.md
lines 155-178): keep only parts whose `text` is a string; produce a
mapped candidate only when `candidate.content` and `candidate.content.parts`
exist and at least one string-text part was found, else drop the
candidate (`mappedContent` stays `undefined`). -/
def mapCandidateHttp (c : BCandidate) : Option ClientCandidate :=
  match c.content with
  | none => none
  | some ct =>
    match ct.parts with
    | none => none
    | some ps =>
      let mappedParts := httpTextParts ps
      if mappedParts.length > 0 then
        some { content := some { role := ct.role, parts := mappedParts },
               finishReason := c.finishReason,
               safetyRatings := c.safetyRatings }
      else
        none

/-- Synthetic fallback candidate of the HTTP unary handler
(CONTRIBUTING.md lines 187 and 190): `{content: {role: 'model',
parts: [{text: msg}]}}` with no `finishReason` or `safetyRatings` keys. -/
def syntheticCandidate (msg : String) : ClientCandidate :=
  { content := some { role := some "model", parts := [{ text := msg }] },
    finishReason := none,
    safetyRatings := none }

/-- Response transformation of `app.post('/v1/chat')` (CONTRIBUTING.md
lines 150-192): when the backend result has a non-empty candidates array,
map each candidate with `mapCandidateHttp` (dropped candidates are simply
not pushed); otherwise return one synthetic fallback candidate. -/
def httpChatTransform (r : Option GenResponse) : ClientResponse :=
  if hasBackendCandidates r then
    match r with
    | some resp =>
      match resp.candidates with
      | some l => { candidates := l.filterMap mapCandidateHttp }
      | none => { candidates := [] }
    | none => { candidates := [] }
  else
    { candidates := [syntheticCandidate (fallbackMessage r)] }

/-! ## gRPC unary response mapper (server.ts lines 119-142) -/

structure GContentPart where
  text : String
deriving DecidableEq, Repr

structure GHistoryItem where
  role : String
  parts : List GContentPart
deriving DecidableEq, Repr

structure GCandidate where
  content : GHistoryItem
  finish_reason : String
deriving DecidableEq, Repr

/-- Proto `ChatMessage`: `repeated Candidate candidates` plus an `error`
field; `error` is set to `null` on the mapping branch and to a message
string on the fallback branch. -/
structure ChatMessage where
  candidates : List GCandidate
  error : Option String
deriving DecidableEq, Repr

/-- Per-candidate mapping of the gRPC unary handler (server.ts lines
122-129): every backend candidate is kept; `role` defaults to `'model'`
via `??`, each part becomes `{text: part.text ?? ''}` (a part without
string text becomes an empty-text part, nothing is dropped), absent
`parts` becomes `[]`, and `finish_reason` defaults to `''`. -/
def mapCandidateGrpc (c : BCandidate) : GCandidate :=
  { content :=
      { role :=
          match c.content with
          | some ct => ct.role.getD "model"
          | none => "model",
        parts :=
          match c.content with
          | some ct =>
            match ct.parts with
            | some ps => ps.map fun p => { text := p.text.getD "" }
            | none => []
          | none => [] },
    finish_reason := c.finishReason.getD "" }

/-- Response transformation of the gRPC `chat` handler (server.ts lines
119-139): `responsePayload` starts as `{candidates: [], error: null}`;
on a non-empty backend candidates array every candidate is mapped; on the
fallback branch `candidates` stays `[]` and `error` is set to the
fallback message. -/
def grpcChatTransform (r : Option GenResponse) : ChatMessage :=
  if hasBackendCandidates r then
    match r with
    | some resp =>
      match resp.candidates with
      | some l => { candidates := l.map mapCandidateGrpc, error := none }
      | none => { candidates := [], error := none }
    | none => { candidates := [], error := none }
  else
    { candidates := [], error := some (fallbackMessage r) }

/-- Spec notion of a qualifying backend candidate (spec section 4.3): it
has structured content with at least one part whose text is a string. -/
def qualifies (c : BCandidate) : Bool :=
  match c.content with
  | none => false
  | some ct =>
    match ct.parts with
    | none => false
    | some ps => ps.any fun p => p.text.isSome

/-- Number of qualifying candidates of a backend unary result. -/
def countQualifying (r : Option GenResponse) : Nat :=
  match r with
  | none => 0
  | some resp =>
    match resp.candidates with
    | none => 0
    | some l => l.countP fun c => qualifies c

/-! ## Configuration and startup validation

Environment variables used by the two variants (server.ts lines 16-38,
CONTRIBUTING.md lines 65-83). An unset variable is `none`; a variable set
to the empty string is falsy in the `if (!X || ...)` checks, exactly as
`strTruthy` renders it. -/

structure Config where
  expectedApiKey : Option String
  gcpProjectId : Option String
  gcpRegion : Option String
  vertexAiEndpoint : Option String
  vertexAiModelId : Option String
deriving DecidableEq, Repr

/-- Startup validation of the gRPC variant (server.ts lines 29-38):
`if (!GCP_PROJECT_ID || !GCP_REGION || !VERTEX_AI_MODEL_ID ||
!EXPECTED_API_KEY) process.exit(1)`. Returns `true` when the process
starts, `false` when it exits before binding. -/
def grpcStartupOk (cfg : Config) : Bool :=
  strTruthy cfg.gcpProjectId && strTruthy cfg.gcpRegion &&
    strTruthy cfg.vertexAiModelId && strTruthy cfg.expectedApiKey

/-- Startup validation of the HTTP variant (CONTRIBUTING.md lines 74-83):
`if (!GCP_PROJECT_ID || !GCP_REGION || !VERTEX_AI_ENDPOINT ||
!VERTEX_AI_MODEL_ID) process.exit(1)`. The expected API key is not
checked here. -/
def httpStartupOk (cfg : Config) : Bool :=
  strTruthy cfg.gcpProjectId && strTruthy cfg.gcpRegion &&
    strTruthy cfg.vertexAiEndpoint && strTruthy cfg.vertexAiModelId

/-! ## API-key gate -/

/-- Outcome of the HTTP `apiKeyMiddleware` (CONTRIBUTING.md lines 85-98):
`configError` when `EXPECTED_API_KEY` is falsy on the server
(`res.status(500)`), `unauthorized` when the `x-api-key` header is falsy
or differs from the expected key (`res.status(401)`), `pass` when
`next()` is called. -/
inductive GateOutcome where
  | configError
  | unauthorized
  | pass
deriving DecidableEq, Repr

/-- The HTTP `apiKeyMiddleware` (CONTRIBUTING.md lines 85-98). `key` is
the `x-api-key` request header, absent or a string. -/
def apiKeyMiddleware (cfg : Config) (key : Option String) : GateOutcome :=
  if !strTruthy cfg.expectedApiKey then
    .configError
  else if !strTruthy key || key != cfg.expectedApiKey then
    .unauthorized
  else
    .pass

/-- The gRPC `checkApiKey` helper (server.ts lines 70-78):
`metadata.get('x-api-key')` yields a list of values; the check fails when
the list is empty or its first element differs from `EXPECTED_API_KEY`.
Comparing a present string against an unset expected key
(`apiKey[0] !== undefined`) is a mismatch. -/
def checkApiKey (cfg : Config) (mkey : List String) : Bool :=
  match mkey.head? with
  | none => false
  | some k =>
    match cfg.expectedApiKey with
    | none => false
    | some e => k == e

/-! ## Request mapper -/

structure ReqPart where
  text : String
deriving DecidableEq, Repr

structure ReqContent where
  role : String
  parts : List ReqPart
deriving DecidableEq, Repr

/-- Proto `HistoryItem` as received by the gRPC handlers: a role and a
list of text parts. -/
structure ProtoHistoryItem where
  role : String
  parts : List ReqPart
deriving DecidableEq, Repr

/-- The gRPC helper `mapProtoHistoryToVertex` (server.ts lines 81-86):
each history item is rebuilt as `{role: item.role, parts:
item.parts.map(part => ({text: part.text}))}`. -/
def mapProtoHistoryToVertex (protoHistory : List ProtoHistoryItem) : List ReqContent :=
  protoHistory.map fun item =>
    { role := item.role, parts := item.parts.map fun p => { text := p.text } }

/-- Structural identity between a proto history item and a Vertex-format
content entry, used to state that history is copied verbatim. -/
def protoToContent (item : ProtoHistoryItem) : ReqContent :=
  { role := item.role, parts := item.parts }

/-- The synthesized user turn `{role: 'user', parts: [{text: userPrompt}]}`
(server.ts line 109, CONTRIBUTING.md line 137). -/
def userTurn (prompt : String) : ReqContent :=
  { role := "user", parts := [{ text := prompt }] }

/-- The `contents` array built by the gRPC handlers (server.ts lines
106-110): the mapped history followed by the synthesized user turn. -/
def grpcContents (prompt : String) (history : List ProtoHistoryItem) : List ReqContent :=
  mapProtoHistoryToVertex history ++ [userTurn prompt]

/-- The `contents` array built by the HTTP handlers (CONTRIBUTING.md
lines 135-138): the client history (already in Vertex format, defaulting
to `[]` when absent) followed by the synthesized user turn. -/
def httpContents (prompt : String) (history : Option (List ReqContent)) : List ReqContent :=
  history.getD [] ++ [userTurn prompt]

/-! ## Unary handlers -/

/-- Outcome of the backend unary call as observed by a handler: the SDK
promise either resolves with `result.response` (possibly undefined, hence
`Option GenResponse`) or rejects. -/
inductive BackendUnary where
  | ret (resp : Option GenResponse)
  | throws (msg : String)
deriving DecidableEq, Repr

/-- JSON body of an HTTP response of the unary route: `candidates` and
`error` keys, each present or absent. -/
structure JsonBody where
  candidates : Option (List ClientCandidate)
  error : Option String
deriving DecidableEq, Repr

inductive HttpBody where
  | json (b : JsonBody)
  | textBody (s : String)
deriving DecidableEq, Repr

structure HttpResponse where
  status : Nat
  body : HttpBody
deriving DecidableEq, Repr

/-- Result of one HTTP unary request: the response sent, and the
`contents` payload sent to the backend (`none` when the backend was never
called, `some` for the exactly-one call the handler makes). -/
structure HttpUnaryOutcome where
  response : HttpResponse
  sentToBackend : Option (List ReqContent)
deriving DecidableEq, Repr

/-- The HTTP unary operation `POST /v1/chat` including the
`apiKeyMiddleware` applied by `app.use` before the route
(CONTRIBUTING.md lines 85-200). `prompt` of `none` models an absent
`req.body.prompt`; `some ""` is falsy in `if (!userPrompt)`. -/
def httpChat (cfg : Config) (key : Option String) (prompt : Option String)
    (history : Option (List ReqContent)) (backend : BackendUnary) : HttpUnaryOutcome :=
  match apiKeyMiddleware cfg key with
  | .configError =>
    { response := ⟨500, .json ⟨none, some "Server configuration error"⟩⟩,
      sentToBackend := none }
  | .unauthorized =>
    { response := ⟨401, .json ⟨none, some "Unauthorized: Invalid or missing API Key"⟩⟩,
      sentToBackend := none }
  | .pass =>
    match prompt with
    | none =>
      { response := ⟨400, .json ⟨some [], none⟩⟩, sentToBackend := none }
    | some p =>
      if p.isEmpty then
        { response := ⟨400, .json ⟨some [], none⟩⟩, sentToBackend := none }
      else
        match backend with
        | .throws _ =>
          { response := ⟨500, .json ⟨some [], some "Internal Server Error"⟩⟩,
            sentToBackend := some (httpContents p history) }
        | .ret resp =>
          { response := ⟨200, .json ⟨some (httpChatTransform resp).candidates, none⟩⟩,
            sentToBackend := some (httpContents p history) }

/-- The HTTP health route `GET /_health` (CONTRIBUTING.md lines 297-300).
The route is registered after `app.use(apiKeyMiddleware)` (line 100), and
an Express middleware mounted without a path runs for every request that
reaches later-registered routes, so the gate runs first here too. -/
def healthRoute (cfg : Config) (key : Option String) : HttpResponse :=
  match apiKeyMiddleware cfg key with
  | .configError => ⟨500, .json ⟨none, some "Server configuration error"⟩⟩
  | .unauthorized => ⟨401, .json ⟨none, some "Unauthorized: Invalid or missing API Key"⟩⟩
  | .pass => ⟨200, .textBody "OK"⟩

inductive GrpcStatus where
  | UNAUTHENTICATED
  | INVALID_ARGUMENT
  | INTERNAL
deriving DecidableEq, Repr

/-- What the gRPC unary `callback` receives: an error object with a
status code, or a success payload. -/
inductive GrpcUnaryReply where
  | err (code : GrpcStatus) (details : String)
  | ok (msg : ChatMessage)
deriving DecidableEq, Repr

structure GrpcUnaryOutcome where
  reply : GrpcUnaryReply
  sentToBackend : Option (List ReqContent)
deriving DecidableEq, Repr

/-- The gRPC unary `chat` handler (server.ts lines 91-148). The proto
`prompt` field is a plain string (absent means `""`), so `if (!userPrompt)`
is the emptiness check. -/
def chat (cfg : Config) (mkey : List String) (prompt : String)
    (history : List ProtoHistoryItem) (backend : BackendUnary) : GrpcUnaryOutcome :=
  if !checkApiKey cfg mkey then
    { reply := .err .UNAUTHENTICATED "Invalid or missing API Key", sentToBackend := none }
  else if prompt.isEmpty then
    { reply := .err .INVALID_ARGUMENT "Missing prompt", sentToBackend := none }
  else
    match backend with
    | .throws _ =>
      { reply := .err .INTERNAL "Internal Server Error",
        sentToBackend := some (grpcContents prompt history) }
    | .ret resp =>
      { reply := .ok (grpcChatTransform resp),
        sentToBackend := some (grpcContents prompt history) }

/-! ## Streaming relays

The backend streaming call yields a finite sequence of
`GenerateContentResponse` items followed by an aggregated response
(`streamingResult.stream` and `streamingResult.response`); alternatively
the iteration throws after some prefix of items. -/

/-- Proto `StreamChatMessage` as written by the gRPC relay. A chunk
written without a `finish_reason` key (the error chunk of server.ts line
225) carries `none`. -/
structure StreamChunkMsg where
  text_chunk : String
  finish_reason_field : Option String
  error : Option String
  is_final_chunk : Bool
deriving DecidableEq, Repr

/-- One SSE `data:` event of the HTTP streaming route: a content chunk
(CONTRIBUTING.md line 248), the `[DONE]` sentinel (line 263), or an error
event (lines 271 and 288). -/
inductive SseEvent where
  | chunk (text : String) (role : String) (finishReason : Option String)
  | done (finishReason : String)
  | err (msg : String)
deriving DecidableEq, Repr

/-- Inner loop of the gRPC relay over one candidate's parts (server.ts
lines 187-199): `if (part.text)` — only parts with a truthy (non-empty
string) text yield a chunk, with `finish_reason: candidate.finishReason
?? null`. -/
def grpcPartChunks (finishReason : Option String) : List BPart → List StreamChunkMsg
  | [] => []
  | p :: ps =>
    (match p.text with
     | some t =>
       if t.isEmpty then []
       else [{ text_chunk := t, finish_reason_field := finishReason,
               error := none, is_final_chunk := false }]
     | none => []) ++ grpcPartChunks finishReason ps

/-- Per-candidate step of the gRPC relay (server.ts line 186):
`if (candidate?.content?.parts && candidate.content.parts.length > 0)`. -/
def grpcCandChunks (c : BCandidate) : List StreamChunkMsg :=
  match c.content with
  | none => []
  | some ct =>
    match ct.parts with
    | none => []
    | some ps => if ps.length > 0 then grpcPartChunks c.finishReason ps else []

def grpcCandListChunks : List BCandidate → List StreamChunkMsg
  | [] => []
  | c :: cs => grpcCandChunks c ++ grpcCandListChunks cs

/-- Per-item step of the gRPC relay (server.ts line 184):
`if (item?.candidates && item.candidates.length > 0)`. -/
def grpcItemChunks (it : GenResponse) : List StreamChunkMsg :=
  match it.candidates with
  | none => []
  | some cs => if cs.length > 0 then grpcCandListChunks cs else []

/-- The non-final chunks the gRPC relay writes for a backend stream
(server.ts lines 183-203), in encounter order. -/
def grpcRelayChunks : List GenResponse → List StreamChunkMsg
  | [] => []
  | it :: rest => grpcItemChunks it ++ grpcRelayChunks rest

/-- Terminal finish reason of the gRPC relay (server.ts line 207):
`aggregatedResponse?.candidates?.[0]?.finishReason ?? 'STOP'`. -/
def grpcFinalReason (agg : GenResponse) : String :=
  match agg.candidates with
  | none => "STOP"
  | some cs =>
    match cs.head? with
    | none => "STOP"
    | some c => c.finishReason.getD "STOP"

/-- The final chunk of the gRPC relay (server.ts lines 210-215). -/
def grpcFinalChunk (agg : GenResponse) : StreamChunkMsg :=
  { text_chunk := "", finish_reason_field := some (grpcFinalReason agg),
    error := none, is_final_chunk := true }

/-- The best-effort error chunk of the gRPC relay's catch block
(server.ts line 225); no `finish_reason` key is written. -/
def grpcErrorChunk : StreamChunkMsg :=
  { text_chunk := "", finish_reason_field := none,
    error := some "Internal Server Error", is_final_chunk := true }

/-- JavaScript `candidate.content.role || 'model'` (CONTRIBUTING.md
line 245). -/
def roleOrModel : Option String → String
  | none => "model"
  | some s => if s.isEmpty then "model" else s

/-- Inner loop of the SSE relay over one candidate's parts
(CONTRIBUTING.md lines 239-250): `typeof part.text === 'string'` — every
part with string text (the empty string included) yields an event. -/
def ssePartEvents (role : String) (finishReason : Option String) :
    List BPart → List SseEvent
  | [] => []
  | p :: ps =>
    (match p.text with
     | some t => [SseEvent.chunk t role finishReason]
     | none => []) ++ ssePartEvents role finishReason ps

/-- Per-candidate step of the SSE relay (CONTRIBUTING.md line 238):
`if (candidate.content && candidate.content.parts)` (no length check). -/
def sseCandEvents (c : BCandidate) : List SseEvent :=
  match c.content with
  | none => []
  | some ct =>
    match ct.parts with
    | none => []
    | some ps => ssePartEvents (roleOrModel ct.role) (truthyOrNull c.finishReason) ps

def sseCandListEvents : List BCandidate → List SseEvent
  | [] => []
  | c :: cs => sseCandEvents c ++ sseCandListEvents cs

/-- Per-item step of the SSE relay (CONTRIBUTING.md line 235):
`if (chunk.candidates && chunk.candidates.length > 0)`. -/
def sseItemEvents (it : GenResponse) : List SseEvent :=
  match it.candidates with
  | none => []
  | some cs => if cs.length > 0 then sseCandListEvents cs else []

/-- The non-final events the SSE relay writes for a backend stream
(CONTRIBUTING.md lines 234-254), in encounter order. -/
def sseRelayEvents : List GenResponse → List SseEvent
  | [] => []
  | it :: rest => sseItemEvents it ++ sseRelayEvents rest

/-- Terminal finish reason of the SSE relay (CONTRIBUTING.md lines
258-261): `'STOP'` unless the aggregated response has a non-empty
candidates array, then `candidates[0].finishReason || 'STOP'`. -/
def httpFinalReason (agg : GenResponse) : String :=
  match agg.candidates with
  | none => "STOP"
  | some cs =>
    if cs.length > 0 then
      match cs.head? with
      | none => "STOP"
      | some c =>
        match c.finishReason with
        | some s => if s.isEmpty then "STOP" else s
        | none => "STOP"
    else "STOP"

/-- A backend stream as observed by a relay: either it completes
(the yielded items plus the aggregated response), or the iteration
throws after yielding a prefix of items. -/
inductive BackendStream where
  | finite (items : List GenResponse) (aggregated : GenResponse)
  | throwsAfter (items : List GenResponse) (msg : String)
deriving DecidableEq, Repr

/-- Observable outcome of one gRPC `streamChat` call: the chunks written
to the client, the gRPC error emitted instead of content (auth and
validation failures), whether `call.end()` ran, and the payload sent to
the backend (`none` means zero backend calls). -/
structure GrpcStreamOutcome where
  written : List StreamChunkMsg
  emittedError : Option (GrpcStatus × String)
  ended : Bool
  sentToBackend : Option (List ReqContent)
deriving DecidableEq, Repr

/-- The gRPC `streamChat` handler (server.ts lines 151-231).
`errorWriteFails` models the best-effort `call.write` inside the catch
block throwing; `call.end()` runs in every path. -/
def streamChat (cfg : Config) (mkey : List String) (prompt : String)
    (history : List ProtoHistoryItem) (backend : BackendStream)
    (errorWriteFails : Bool) : GrpcStreamOutcome :=
  if !checkApiKey cfg mkey then
    { written := [], emittedError := some (.UNAUTHENTICATED, "Invalid or missing API Key"),
      ended := true, sentToBackend := none }
  else if prompt.isEmpty then
    { written := [], emittedError := some (.INVALID_ARGUMENT, "Missing prompt"),
      ended := true, sentToBackend := none }
  else
    match backend with
    | .finite items agg =>
      { written := grpcRelayChunks items ++ [grpcFinalChunk agg],
        emittedError := none, ended := true,
        sentToBackend := some (grpcContents prompt history) }
    | .throwsAfter items _ =>
      { written := grpcRelayChunks items ++ (if errorWriteFails then [] else [grpcErrorChunk]),
        emittedError := none, ended := true,
        sentToBackend := some (grpcContents prompt history) }

/-- Reply of one HTTP streaming request: either rejected before any SSE
output (gate or validation failure), or an SSE stream of events together
with whether `res.end()` ran. -/
inductive SseReply where
  | rejected (status : Nat) (body : JsonBody)
  | streamed (events : List SseEvent) (ended : Bool)
deriving DecidableEq, Repr

structure HttpStreamOutcome where
  reply : SseReply
  sentToBackend : Option (List ReqContent)
deriving DecidableEq, Repr

/-- The HTTP streaming operation `POST /v1/chat/stream` including the
`apiKeyMiddleware` (CONTRIBUTING.md lines 85-100 and 202-296). On a
mid-stream throw the catch block (lines 267-277) runs `res.write` and
`res.end()` inside one `try`: when that `res.write` itself throws
(`errorWriteFails`), `res.end()` is skipped and only a log line runs. -/
def httpStreamChat (cfg : Config) (key : Option String) (prompt : Option String)
    (history : Option (List ReqContent)) (backend : BackendStream)
    (errorWriteFails : Bool) : HttpStreamOutcome :=
  match apiKeyMiddleware cfg key with
  | .configError =>
    { reply := .rejected 500 ⟨none, some "Server configuration error"⟩,
      sentToBackend := none }
  | .unauthorized =>
    { reply := .rejected 401 ⟨none, some "Unauthorized: Invalid or missing API Key"⟩,
      sentToBackend := none }
  | .pass =>
    match prompt with
    | none =>
      { reply := .rejected 400 ⟨none, some "Missing prompt in request body"⟩,
        sentToBackend := none }
    | some p =>
      if p.isEmpty then
        { reply := .rejected 400 ⟨none, some "Missing prompt in request body"⟩,
          sentToBackend := none }
      else
        match backend with
        | .finite items agg =>
          { reply := .streamed (sseRelayEvents items ++ [.done (httpFinalReason agg)]) true,
            sentToBackend := some (httpContents p history) }
        | .throwsAfter items _ =>
          { reply := .streamed
              (sseRelayEvents items ++ (if errorWriteFails then [] else [.err "Stream processing error"]))
              (!errorWriteFails),
            sentToBackend := some (httpContents p history) }

/-! ## Spec-side part extraction, used to state the streaming claims -/

/-- All parts of one candidate, `[]` when content or parts are absent. -/
def candParts (c : BCandidate) : List BPart :=
  match c.content with
  | none => []
  | some ct => ct.parts.getD []

/-- All parts of one item's candidates, in encounter order. -/
def candListParts : List BCandidate → List BPart
  | [] => []
  | c :: cs => candParts c ++ candListParts cs

def itemParts (it : GenResponse) : List BPart :=
  candListParts (it.candidates.getD [])

/-- All parts of a backend stream, in encounter order. -/
def streamParts : List GenResponse → List BPart
  | [] => []
  | it :: rest => itemParts it ++ streamParts rest

/-- Number of parts of a backend stream whose text is a string. -/
def stringTextPartCount (items : List GenResponse) : Nat :=
  (streamParts items).countP fun p => p.text.isSome

/-- Number of parts of a backend stream whose text is a non-empty
string. -/
def nonEmptyTextPartCount (items : List GenResponse) : Nat :=
  (streamParts items).countP fun p => strTruthy p.text

/-- The text of a part when it is a truthy (non-empty) string, else
`none`. -/
def truthyTextOf (p : BPart) : Option String :=
  match p.text with
  | some t => if t.isEmpty then none else some t
  | none => none

/-- The truthy (non-empty string) texts of a backend stream's parts, in
encounter order. -/
def grpcStreamTexts (items : List GenResponse) : List String :=
  (streamParts items).filterMap truthyTextOf

/-- The string texts of a backend stream's parts (empty strings
included), in encounter order. -/
def sseStreamTexts (items : List GenResponse) : List String :=
  (streamParts items).filterMap fun p => p.text

/-- Discriminates the SSE content-chunk events from the `[DONE]` and
error events. -/
def SseEvent.isContentChunk : SseEvent → Bool
  | .chunk _ _ _ => true
  | .done _ => false
  | .err _ => false

/-- The text carried by an SSE event (`"[DONE]"` for the sentinel, the
message for an error event). -/
def SseEvent.textOf : SseEvent → String
  | .chunk t _ _ => t
  | .done _ => "[DONE]"
  | .err m => m

/-- The backend candidates array of a unary result, `[]` when the result
or the array is absent. -/
def backendCandList : Option GenResponse → List BCandidate
  | none => []
  | some resp => resp.candidates.getD []

/-! ## Concrete example values used by counterexamples and witnesses -/

/-- A fully configured server: expected key `"secret"`, all backend
identifiers present. -/
def exCfg : Config :=
  { expectedApiKey := some "secret", gcpProjectId := some "p",
    gcpRegion := some "r", vertexAiEndpoint := some "e",
    vertexAiModelId := some "m" }

/-- A backend candidate with one part whose text is a string. -/
def exGoodCandidate : BCandidate :=
  { content := some { role := some "model", parts := some [{ text := some "hi" }] },
    finishReason := some "STOP", safetyRatings := none }

/-- A backend candidate with one part whose text is not a string: it has
no string-text part, so it does not qualify. -/
def exBadCandidate : BCandidate :=
  { content := some { role := some "model", parts := some [{ text := none }] },
    finishReason := none, safetyRatings := none }

/-- A backend unary result with one candidate, zero qualifying
candidates, and block reason `"SAFETY"`. -/
def exRespC1 : Option GenResponse :=
  some { candidates := some [exBadCandidate],
         promptFeedback := some { blockReason := some "SAFETY" } }

/-- A backend unary result with two candidates of which one qualifies. -/
def exRespC4 : Option GenResponse :=
  some { candidates := some [exGoodCandidate, exBadCandidate],
         promptFeedback := none }

/-- A backend unary result with a non-empty candidates array none of
whose candidates qualifies. -/
def exRespC10 : Option GenResponse :=
  some { candidates := some [exBadCandidate],
         promptFeedback := none }

/-- A one-item backend stream whose only part has the empty string as
text: the part's text is a string, but it is not truthy. -/
def exStreamC3 : List GenResponse :=
  [ { candidates := some [ { content := some { role := some "model",
                                               parts := some [{ text := some "" }] },
                             finishReason := none, safetyRatings := none } ],
      promptFeedback := none } ]

/-- An aggregated streaming response with no candidates array. -/
def exAggregated : GenResponse :=
  { candidates := none, promptFeedback := none }

/-- A backend unary result with no candidates array and block reason
`"SAFETY"`. -/
def exRespBlockedOnly : Option GenResponse :=
  some { candidates := none,
         promptFeedback := some { blockReason := some "SAFETY" } }

/-- A one-item backend stream carrying one part with non-empty text
`"hello"`. -/
def exStreamHi : List GenResponse :=
  [ { candidates := some [ { content := some { role := some "model",
                                               parts := some [{ text := some "hello" }] },
                             finishReason := none, safetyRatings := none } ],
      promptFeedback := none } ]

/-- A configuration with every backend identifier present but no
expected API key. -/
def exCfgNoKey : Config :=
  { expectedApiKey := none, gcpProjectId := some "p",
    gcpRegion := some "r", vertexAiEndpoint := some "e",
    vertexAiModelId := some "m" }

/-! ## Helper lemmas -/

theorem length_filterMap_eq_countP {α β : Type} (f : α → Option β) (l : List α) :
    (l.filterMap f).length = l.countP fun a => (f a).isSome := by
  induction l with
  | nil => rfl
  | cons a l ih =>
    cases h : f a <;> simp [List.filterMap_cons, h, List.countP_cons, ih]

theorem mapCandidateHttp_isSome (c : BCandidate) :
    (mapCandidateHttp c).isSome = qualifies c := by
  rcases c with ⟨content, fr, sr⟩
  cases content with
  | none => rfl
  | some ct =>
    rcases ct with ⟨role, parts⟩
    cases parts with
    | none => rfl
    | some ps =>
      simp only [mapCandidateHttp, qualifies, httpTextParts]
      rw [length_filterMap_eq_countP]
      by_cases h : 0 < ps.countP fun p => (match p.text with
          | some t => some ({ text := t } : ClientPart)
          | none => none).isSome
      · rw [if_pos h]
        simp only [Option.isSome_some]
        symm
        rw [List.any_eq_true]
        obtain ⟨p, hp, hsome⟩ := List.countP_pos_iff.mp h
        refine ⟨p, hp, ?_⟩
        cases hpt : p.text <;> simp [hpt] at hsome ⊢
      · rw [if_neg h]
        simp only [Option.isSome_none]
        symm
        rw [List.any_eq_false]
        intro p hp
        rw [Nat.pos_iff_ne_zero, not_not, List.countP_eq_zero] at h
        have := h p hp
        cases hpt : p.text <;> simp [hpt] at this ⊢

theorem filterMap_mapCandidateHttp_length (l : List BCandidate) :
    (l.filterMap mapCandidateHttp).length = l.countP qualifies := by
  rw [length_filterMap_eq_countP]
  exact List.countP_congr fun c _ => by rw [mapCandidateHttp_isSome c]

theorem apiKeyMiddleware_pass {cfg : Config} {e : String}
    (he : cfg.expectedApiKey = some e) (hne : e.isEmpty = false) :
    apiKeyMiddleware cfg (some e) = .pass := by
  simp [apiKeyMiddleware, he, strTruthy, hne]

theorem apiKeyMiddleware_unauthorized {cfg : Config} {e : String}
    (he : cfg.expectedApiKey = some e) (hne : e.isEmpty = false)
    {key : Option String} (hk : key ≠ some e) :
    apiKeyMiddleware cfg key = .unauthorized := by
  cases key with
  | none => simp [apiKeyMiddleware, he, strTruthy, hne]
  | some s =>
    have hs : s ≠ e := fun h => hk (by rw [h])
    by_cases hemp : s.isEmpty <;>
      simp [apiKeyMiddleware, he, strTruthy, hemp, hne, hs]

theorem checkApiKey_eq_false {cfg : Config} {e : String}
    (he : cfg.expectedApiKey = some e) {mkey : List String}
    (h : mkey.head? ≠ some e) : checkApiKey cfg mkey = false := by
  unfold checkApiKey
  cases hm : mkey.head? with
  | none => rfl
  | some k =>
    rw [he]
    have : k ≠ e := fun hh => h (by rw [hm, hh])
    simp [this]

theorem checkApiKey_eq_true {cfg : Config} {e : String}
    (he : cfg.expectedApiKey = some e) {mkey : List String}
    (h : mkey.head? = some e) : checkApiKey cfg mkey = true := by
  unfold checkApiKey
  rw [h, he]
  simp

theorem map_reqPart_id (ps : List ReqPart) :
    (ps.map fun p => ({ text := p.text } : ReqPart)) = ps := by
  induction ps with
  | nil => rfl
  | cons p ps ih => simp [ih]

theorem mapProtoHistoryToVertex_eq_map (h : List ProtoHistoryItem) :
    mapProtoHistoryToVertex h = h.map protoToContent := by
  induction h with
  | nil => rfl
  | cons item rest ih =>
    simp only [mapProtoHistoryToVertex, List.map_cons] at *
    rw [ih]
    congr 1
    simp [protoToContent, map_reqPart_id]

/-! ## Claim theorems -/

/-- Claim C1 (counterexample). The claim says that for every backend
unary result with zero qualifying candidates both unary operations return
exactly one synthetic candidate whose text names the block reason. At
`exRespC1` — one backend candidate with no string-text part (so zero
qualifying candidates) and block reason `"SAFETY"` — the HTTP operation
returns an empty candidates list (its fallback branch keys on the backend
candidates array being empty, not on qualifying candidates), and the gRPC
operation returns a non-empty candidates list with a null error and no
synthetic candidate at all. -/
theorem claim_C1_counterexample :
    countQualifying exRespC1 = 0 ∧
    (httpChatTransform exRespC1).candidates = [] ∧
    (grpcChatTransform exRespC1).error = none ∧
    (grpcChatTransform exRespC1).candidates ≠ [] ∧
    (httpChatTransform exRespC1).candidates ≠
      [syntheticCandidate "Response blocked: SAFETY"] := by
  decide

/-- Claim C1 (amended). When the backend unary result has an empty or
absent candidates array, the HTTP operation returns exactly one synthetic
candidate — text `"Response blocked: " ++ blockReason` when the block
reason is truthy, `"Sorry, I could not generate a response."` otherwise,
the two branches being mutually exclusive — while the gRPC operation
returns empty candidates with the same message in its `error` field
instead of a synthetic candidate. When the backend candidates array is
non-empty, neither fallback occurs: the HTTP output is exactly the
per-candidate filter-map and the gRPC error is null. -/
theorem claim_C1_amended :
    ∀ r : Option GenResponse,
      (hasBackendCandidates r = false →
        (httpChatTransform r).candidates = [syntheticCandidate (fallbackMessage r)] ∧
        grpcChatTransform r = { candidates := [], error := some (fallbackMessage r) } ∧
        (strTruthy (blockReasonOf r) = true →
          ∃ s, blockReasonOf r = some s ∧
            fallbackMessage r = "Response blocked: " ++ s) ∧
        (strTruthy (blockReasonOf r) = false →
          fallbackMessage r = "Sorry, I could not generate a response.")) ∧
      (hasBackendCandidates r = true →
        (httpChatTransform r).candidates = (backendCandList r).filterMap mapCandidateHttp ∧
        (grpcChatTransform r).error = none) := by
  intro r
  constructor
  · intro h
    refine ⟨?_, ?_, ?_, ?_⟩
    · simp [httpChatTransform, h]
    · simp [grpcChatTransform, h]
    · intro hb
      cases hs : blockReasonOf r with
      | none => rw [hs] at hb; simp [strTruthy] at hb
      | some s =>
        refine ⟨s, rfl, ?_⟩
        rw [hs] at hb
        simp [fallbackMessage, hs, hb]
    · intro hb
      simp [fallbackMessage, hb]
  · intro h
    cases r with
    | none => simp [hasBackendCandidates] at h
    | some resp =>
      cases hc : resp.candidates with
      | none => rw [hasBackendCandidates, hc] at h; simp at h
      | some l =>
        constructor
        · simp [httpChatTransform, h, hc, backendCandList]
        · simp [grpcChatTransform, h, hc]

/-- Claim C1 (witness): the amended theorem applied to a concrete result
with no candidates array and block reason `"SAFETY"`. -/
theorem claim_C1_witness :
    hasBackendCandidates exRespBlockedOnly = false ∧
    (httpChatTransform exRespBlockedOnly).candidates =
      [syntheticCandidate (fallbackMessage exRespBlockedOnly)] :=
  ⟨by decide, ((claim_C1_amended exRespBlockedOnly).1 (by decide)).1⟩

/-- Claim C2 (counterexample). The claim says `GET /_health` answers
`200 "OK"` regardless of the `X-API-Key` header. On the fully configured
server `exCfg`, a health request without the header is answered `401`,
not `200 "OK"`: the route is registered after `app.use(apiKeyMiddleware)`,
so the gate runs for it too. -/
theorem claim_C2_counterexample :
    healthRoute exCfg none ≠ ⟨200, .textBody "OK"⟩ ∧
    healthRoute exCfg none =
      ⟨401, .json ⟨none, some "Unauthorized: Invalid or missing API Key"⟩⟩ := by
  decide

/-- Claim C2 (amended). `GET /_health` is gated like every other route:
with the expected key configured, it answers `200 "OK"` exactly when a
matching `X-API-Key` header is supplied and `401` otherwise; with no
expected key configured it answers `500 "Server configuration error"`. -/
theorem claim_C2_amended :
    ∀ (cfg : Config) (key : Option String),
      (∀ e : String, cfg.expectedApiKey = some e → e.isEmpty = false →
        healthRoute cfg (some e) = ⟨200, .textBody "OK"⟩ ∧
        (key ≠ some e →
          healthRoute cfg key =
            ⟨401, .json ⟨none, some "Unauthorized: Invalid or missing API Key"⟩⟩)) ∧
      (strTruthy cfg.expectedApiKey = false →
        healthRoute cfg key =
          ⟨500, .json ⟨none, some "Server configuration error"⟩⟩) := by
  intro cfg key
  constructor
  · intro e he hne
    constructor
    · simp [healthRoute, apiKeyMiddleware, he, strTruthy, hne]
    · intro hk
      cases key with
      | none => simp [healthRoute, apiKeyMiddleware, he, strTruthy, hne]
      | some s =>
        have hs : s ≠ e := fun h => hk (by rw [h])
        by_cases hemp : s.isEmpty <;>
          simp [healthRoute, apiKeyMiddleware, he, strTruthy, hemp, hne, hs]
  · intro h
    simp [healthRoute, apiKeyMiddleware, h]

/-- Claim C2 (witness): on `exCfg` (expected key `"secret"`), a health
request carrying the right key is answered `200 "OK"`. -/
theorem claim_C2_witness :
    exCfg.expectedApiKey = some "secret" ∧
    healthRoute exCfg (some "secret") = ⟨200, .textBody "OK"⟩ :=
  ⟨rfl, ((claim_C2_amended exCfg none).1 "secret" rfl rfl).1⟩

/-- Claim C5 (counterexample). The claim says both variants refuse to
start when the expected API key is missing. `exCfgNoKey` has no expected
API key yet the HTTP variant's startup validation passes (it only checks
the project, region, endpoint and model identifiers); the gRPC variant
does refuse. -/
theorem claim_C5_counterexample :
    exCfgNoKey.expectedApiKey = none ∧
    httpStartupOk exCfgNoKey = true ∧
    grpcStartupOk exCfgNoKey = false := by
  decide

/-- Claim C5 (amended). The gRPC variant exits before accepting
connections exactly when the expected API key or the project, region or
model identifier is missing or empty; the HTTP variant exits exactly when
the project, region, endpoint or model identifier is missing or empty —
its startup validation is independent of the expected API key, so it
starts without one. -/
theorem claim_C5_amended :
    ∀ cfg : Config,
      (grpcStartupOk cfg = false ↔
        (strTruthy cfg.expectedApiKey = false ∨ strTruthy cfg.gcpProjectId = false ∨
         strTruthy cfg.gcpRegion = false ∨ strTruthy cfg.vertexAiModelId = false)) ∧
      (httpStartupOk cfg = false ↔
        (strTruthy cfg.gcpProjectId = false ∨ strTruthy cfg.gcpRegion = false ∨
         strTruthy cfg.vertexAiEndpoint = false ∨ strTruthy cfg.vertexAiModelId = false)) ∧
      (∀ k : Option String, httpStartupOk { cfg with expectedApiKey := k } = httpStartupOk cfg) := by
  intro cfg
  refine ⟨?_, ?_, fun k => rfl⟩
  · unfold grpcStartupOk
    cases hA : strTruthy cfg.gcpProjectId <;> cases hB : strTruthy cfg.gcpRegion <;>
      cases hC : strTruthy cfg.vertexAiModelId <;>
      cases hD : strTruthy cfg.expectedApiKey <;> simp
  · unfold httpStartupOk
    cases hA : strTruthy cfg.gcpProjectId <;> cases hB : strTruthy cfg.gcpRegion <;>
      cases hC : strTruthy cfg.vertexAiEndpoint <;>
      cases hD : strTruthy cfg.vertexAiModelId <;> simp

/-- Claim C8 (confirmed). When the expected API key is not configured,
the HTTP gate answers every request `500 "Server configuration error"`
with zero backend calls (and in the gRPC variant that state is
unreachable, since its startup validation refuses to start); when the
key is configured, a mismatching request is answered `401`; the two
responses are distinct values. -/
theorem claim_C8_config_error_distinct :
    ∀ (cfg : Config) (key prompt : Option String)
      (history : Option (List ReqContent)) (b : BackendUnary),
      (strTruthy cfg.expectedApiKey = false →
        (httpChat cfg key prompt history b).response =
          ⟨500, .json ⟨none, some "Server configuration error"⟩⟩ ∧
        (httpChat cfg key prompt history b).sentToBackend = none ∧
        grpcStartupOk cfg = false) ∧
      (∀ e : String, cfg.expectedApiKey = some e → e.isEmpty = false → key ≠ some e →
        (httpChat cfg key prompt history b).response =
          ⟨401, .json ⟨none, some "Unauthorized: Invalid or missing API Key"⟩⟩) ∧
      ((⟨500, .json ⟨none, some "Server configuration error"⟩⟩ : HttpResponse) ≠
        ⟨401, .json ⟨none, some "Unauthorized: Invalid or missing API Key"⟩⟩) := by
  intro cfg key prompt history b
  refine ⟨?_, ?_, by decide⟩
  · intro h
    refine ⟨?_, ?_, ?_⟩
    · simp [httpChat, apiKeyMiddleware, h]
    · simp [httpChat, apiKeyMiddleware, h]
    · simp [grpcStartupOk, h]
  · intro e he hne hk
    cases key with
    | none => simp [httpChat, apiKeyMiddleware, he, strTruthy, hne]
    | some s =>
      have hs : s ≠ e := fun h => hk (by rw [h])
      by_cases hemp : s.isEmpty <;>
        simp [httpChat, apiKeyMiddleware, he, strTruthy, hemp, hne, hs]

/-- Claim C8 (witness): on `exCfgNoKey` (no expected key) a request with
some key gets `500 "Server configuration error"` and the backend is not
called. -/
theorem claim_C8_witness :
    strTruthy exCfgNoKey.expectedApiKey = false ∧
    (httpChat exCfgNoKey (some "k") (some "hi") none (.ret none)).response =
      ⟨500, .json ⟨none, some "Server configuration error"⟩⟩ :=
  ⟨by decide,
   ((claim_C8_config_error_distinct exCfgNoKey (some "k") (some "hi") none (.ret none)).1
      (by decide)).1⟩

/-- Claim C4 (counterexample). The claim says the unary Response Mapper
output length equals the number of backend candidates having a
string-text part. At `exRespC4` — one qualifying and one non-qualifying
candidate — the HTTP mapper returns 1 candidate but the gRPC unary
mapper returns 2: it keeps every backend candidate, with no filtering. -/
theorem claim_C4_counterexample :
    countQualifying exRespC4 = 1 ∧
    (httpChatTransform exRespC4).candidates.length = 1 ∧
    (grpcChatTransform exRespC4).candidates.length = 2 := by
  decide

/-- Claim C4 (amended). For a backend result with at least one
qualifying candidate, the HTTP unary mapper's output length equals the
number of qualifying candidates, non-qualifying candidates are omitted
entirely, and each mapped candidate keeps exactly its string-text parts
with its role and finish reason; the gRPC unary mapper instead includes
every backend candidate (output length equals the total number of
backend candidates), coercing parts without string text to empty-text
parts. -/
theorem claim_C4_amended :
    ∀ r : Option GenResponse, 0 < countQualifying r →
      (httpChatTransform r).candidates.length = countQualifying r ∧
      (∀ c ∈ backendCandList r, qualifies c = false → mapCandidateHttp c = none) ∧
      (∀ (c : BCandidate) (d : ClientCandidate), mapCandidateHttp c = some d →
        ∃ ct ps, c.content = some ct ∧ ct.parts = some ps ∧
          d = { content := some { role := ct.role, parts := httpTextParts ps },
                finishReason := c.finishReason,
                safetyRatings := c.safetyRatings }) ∧
      (grpcChatTransform r).candidates.length = (backendCandList r).length := by
  intro r hq
  cases r with
  | none => simp [countQualifying] at hq
  | some resp =>
    cases hc : resp.candidates with
    | none => rw [countQualifying, hc] at hq; simp at hq
    | some l =>
      rw [countQualifying, hc] at hq
      have hlen : 0 < l.length := by
        rcases List.countP_pos_iff.mp hq with ⟨c, hcl, _⟩
        exact List.length_pos_of_mem hcl
      have hbc : hasBackendCandidates (some resp) = true := by
        rw [hasBackendCandidates, hc]
        simpa using hlen
      refine ⟨?_, ?_, ?_, ?_⟩
      · rw [httpChatTransform]
        simp only [hbc, if_true, hc, countQualifying]
        exact filterMap_mapCandidateHttp_length l
      · intro c _ hcq
        have := mapCandidateHttp_isSome c
        rw [hcq] at this
        cases hm : mapCandidateHttp c with
        | none => rfl
        | some d => rw [hm] at this; simp at this
      · intro c d hm
        rcases c with ⟨content, fr, sr⟩
        cases content with
        | none => simp [mapCandidateHttp] at hm
        | some ct =>
          rcases ct with ⟨role, parts⟩
          cases parts with
          | none => simp [mapCandidateHttp] at hm
          | some ps =>
            simp only [mapCandidateHttp] at hm
            by_cases hlp : 0 < (httpTextParts ps).length
            · rw [if_pos hlp] at hm
              exact ⟨⟨role, some ps⟩, ps, rfl, rfl, (Option.some.inj hm).symm⟩
            · rw [if_neg hlp] at hm
              exact absurd hm (by simp)
      · rw [grpcChatTransform]
        simp [hbc, hc, backendCandList]

/-- Claim C4 (witness): the amended theorem applied to `exRespC4`. -/
theorem claim_C4_witness :
    0 < countQualifying exRespC4 ∧
    (httpChatTransform exRespC4).candidates.length = countQualifying exRespC4 :=
  ⟨by decide, (claim_C4_amended exRespC4 (by decide)).1⟩

/-- Claim C10 (counterexample). The claim says a backend result with
zero qualifying candidates is reported as a success response with empty
candidates and a non-null error. At `exRespC10` — a non-empty backend
candidates array none of whose candidates qualifies — the gRPC unary
response has a non-empty candidates list and a null error. -/
theorem claim_C10_counterexample :
    countQualifying exRespC10 = 0 ∧
    (grpcChatTransform exRespC10).candidates ≠ [] ∧
    (grpcChatTransform exRespC10).error = none := by
  decide

/-- Claim C10 (amended). Every gRPC unary success payload satisfies the
invariant that the error field is non-null exactly when the candidates
list is empty; a backend result whose candidates array is empty or
absent is reported through the success callback (never a gRPC error
status) with empty candidates and a non-null error string. -/
theorem claim_C10_amended :
    ∀ r : Option GenResponse,
      ((grpcChatTransform r).error ≠ none ↔ (grpcChatTransform r).candidates = []) ∧
      (hasBackendCandidates r = false →
        grpcChatTransform r = { candidates := [], error := some (fallbackMessage r) }) ∧
      (∀ (cfg : Config) (mkey : List String) (prompt : String)
          (history : List ProtoHistoryItem),
        checkApiKey cfg mkey = true → prompt.isEmpty = false →
          (chat cfg mkey prompt history (.ret r)).reply = .ok (grpcChatTransform r)) := by
  intro r
  refine ⟨?_, ?_, ?_⟩
  · by_cases h : hasBackendCandidates r = true
    · cases r with
      | none => simp [hasBackendCandidates] at h
      | some resp =>
        cases hc : resp.candidates with
        | none => rw [hasBackendCandidates, hc] at h; simp at h
        | some l =>
          rw [hasBackendCandidates, hc] at h
          have hne : l ≠ [] := by
            intro hnil
            rw [hnil] at h
            simp at h
          have hbc : hasBackendCandidates (some resp) = true := by
            rw [hasBackendCandidates, hc]
            simpa using List.length_pos.mpr hne
          simp [grpcChatTransform, hbc, hc, hne]
    · rw [Bool.not_eq_true] at h
      simp [grpcChatTransform, h]
  · intro h
    simp [grpcChatTransform, h]
  · intro cfg mkey prompt history h1 h2
    simp [chat, h1, h2]

/-- Claim C10 (witness): the amended invariant and delivery conjunct
applied on `exCfg` with a correct key, a non-empty prompt, and backend
result `exRespC10`. -/
theorem claim_C10_witness :
    checkApiKey exCfg ["secret"] = true ∧
    (chat exCfg ["secret"] "hi" [] (.ret exRespC10)).reply =
      .ok (grpcChatTransform exRespC10) :=
  ⟨by decide,
   (claim_C10_amended exRespC10).2.2 exCfg ["secret"] "hi" [] (by decide) (by decide)⟩

theorem grpcPartChunks_texts (fr : Option String) (ps : List BPart) :
    (grpcPartChunks fr ps).map (fun c => c.text_chunk) = ps.filterMap truthyTextOf := by
  induction ps with
  | nil => rfl
  | cons p ps ih =>
    cases hpt : p.text with
    | none => simp [grpcPartChunks, truthyTextOf, hpt, List.filterMap_cons, ih]
    | some t =>
      by_cases ht : t.isEmpty <;>
        simp [grpcPartChunks, truthyTextOf, hpt, List.filterMap_cons, ht, ih]

theorem grpcPartChunks_nonfinal (fr : Option String) (ps : List BPart) :
    ∀ c ∈ grpcPartChunks fr ps, c.is_final_chunk = false := by
  induction ps with
  | nil => intro c hc; simp [grpcPartChunks] at hc
  | cons p ps ih =>
    intro c hc
    rw [grpcPartChunks] at hc
    rcases List.mem_append.mp hc with h | h
    · revert h
      cases hpt : p.text with
      | none => intro h; simp at h
      | some t =>
        by_cases ht : t.isEmpty
        · intro h; simp [ht] at h
        · intro h
          simp [ht] at h
          rw [h]
    · exact ih c h

theorem grpcCandChunks_texts (c : BCandidate) :
    (grpcCandChunks c).map (fun x => x.text_chunk) = (candParts c).filterMap truthyTextOf := by
  rcases c with ⟨content, fr, sr⟩
  cases content with
  | none => rfl
  | some ct =>
    rcases ct with ⟨role, parts⟩
    cases parts with
    | none => rfl
    | some ps =>
      cases ps with
      | nil => rfl
      | cons p ps' =>
        simp only [grpcCandChunks, candParts, Option.getD_some]
        rw [if_pos (by simp)]
        exact grpcPartChunks_texts fr (p :: ps')

theorem grpcCandChunks_nonfinal (c : BCandidate) :
    ∀ x ∈ grpcCandChunks c, x.is_final_chunk = false := by
  rcases c with ⟨content, fr, sr⟩
  cases content with
  | none => intro x hx; simp [grpcCandChunks] at hx
  | some ct =>
    rcases ct with ⟨role, parts⟩
    cases parts with
    | none => intro x hx; simp [grpcCandChunks] at hx
    | some ps =>
      cases ps with
      | nil => intro x hx; simp [grpcCandChunks] at hx
      | cons p ps' =>
        intro x hx
        simp only [grpcCandChunks] at hx
        rw [if_pos (by simp)] at hx
        exact grpcPartChunks_nonfinal fr (p :: ps') x hx

theorem grpcCandListChunks_texts (cs : List BCandidate) :
    (grpcCandListChunks cs).map (fun x => x.text_chunk) =
      (candListParts cs).filterMap truthyTextOf := by
  induction cs with
  | nil => rfl
  | cons c cs ih =>
    simp only [grpcCandListChunks, candListParts, List.map_append, List.filterMap_append]
    rw [grpcCandChunks_texts, ih]

theorem grpcCandListChunks_nonfinal (cs : List BCandidate) :
    ∀ x ∈ grpcCandListChunks cs, x.is_final_chunk = false := by
  induction cs with
  | nil => intro x hx; simp [grpcCandListChunks] at hx
  | cons c cs ih =>
    intro x hx
    rcases List.mem_append.mp hx with h | h
    · exact grpcCandChunks_nonfinal c x h
    · exact ih x h

theorem grpcItemChunks_texts (it : GenResponse) :
    (grpcItemChunks it).map (fun x => x.text_chunk) =
      (itemParts it).filterMap truthyTextOf := by
  cases hc : it.candidates with
  | none => simp [grpcItemChunks, itemParts, hc, candListParts]
  | some cs =>
    cases cs with
    | nil => simp [grpcItemChunks, itemParts, hc, candListParts]
    | cons c cs' =>
      simp only [grpcItemChunks, itemParts, hc, Option.getD_some]
      rw [if_pos (by simp)]
      exact grpcCandListChunks_texts (c :: cs')

theorem grpcItemChunks_nonfinal (it : GenResponse) :
    ∀ x ∈ grpcItemChunks it, x.is_final_chunk = false := by
  cases hc : it.candidates with
  | none => intro x hx; simp [grpcItemChunks, hc] at hx
  | some cs =>
    cases cs with
    | nil => intro x hx; simp [grpcItemChunks, hc] at hx
    | cons c cs' =>
      intro x hx
      simp only [grpcItemChunks, hc] at hx
      rw [if_pos (by simp)] at hx
      exact grpcCandListChunks_nonfinal (c :: cs') x hx

theorem grpcRelayChunks_texts (items : List GenResponse) :
    (grpcRelayChunks items).map (fun x => x.text_chunk) = grpcStreamTexts items := by
  induction items with
  | nil => rfl
  | cons it rest ih =>
    simp only [grpcRelayChunks, grpcStreamTexts, streamParts,
      List.map_append, List.filterMap_append] at *
    rw [grpcItemChunks_texts, ih]

theorem grpcRelayChunks_nonfinal (items : List GenResponse) :
    ∀ x ∈ grpcRelayChunks items, x.is_final_chunk = false := by
  induction items with
  | nil => intro x hx; simp [grpcRelayChunks] at hx
  | cons it rest ih =>
    intro x hx
    rcases List.mem_append.mp hx with h | h
    · exact grpcItemChunks_nonfinal it x h
    · exact ih x h

theorem truthyTextOf_isSome (p : BPart) : (truthyTextOf p).isSome = strTruthy p.text := by
  cases hpt : p.text with
  | none => simp [truthyTextOf, strTruthy, hpt]
  | some t => by_cases ht : t.isEmpty <;> simp [truthyTextOf, strTruthy, hpt, ht]

theorem grpcRelayChunks_length (items : List GenResponse) :
    (grpcRelayChunks items).length = nonEmptyTextPartCount items := by
  have h := congrArg List.length (grpcRelayChunks_texts items)
  rw [List.length_map] at h
  rw [h, grpcStreamTexts, length_filterMap_eq_countP, nonEmptyTextPartCount]
  exact List.countP_congr fun p _ => by rw [truthyTextOf_isSome]

theorem ssePartEvents_texts (role : String) (fr : Option String) (ps : List BPart) :
    (ssePartEvents role fr ps).map SseEvent.textOf = ps.filterMap fun p => p.text := by
  induction ps with
  | nil => rfl
  | cons p ps ih =>
    cases hpt : p.text with
    | none => simp [ssePartEvents, hpt, List.filterMap_cons, ih]
    | some t => simp [ssePartEvents, SseEvent.textOf, hpt, List.filterMap_cons, ih]

theorem ssePartEvents_content (role : String) (fr : Option String) (ps : List BPart) :
    ∀ ev ∈ ssePartEvents role fr ps, ev.isContentChunk = true := by
  induction ps with
  | nil => intro ev hev; simp [ssePartEvents] at hev
  | cons p ps ih =>
    intro ev hev
    rw [ssePartEvents] at hev
    rcases List.mem_append.mp hev with h | h
    · revert h
      cases hpt : p.text with
      | none => intro h; simp at h
      | some t =>
        intro h
        simp at h
        rw [h]
        rfl
    · exact ih ev h

theorem sseCandEvents_texts (c : BCandidate) :
    (sseCandEvents c).map SseEvent.textOf = (candParts c).filterMap fun p => p.text := by
  rcases c with ⟨content, fr, sr⟩
  cases content with
  | none => rfl
  | some ct =>
    rcases ct with ⟨role, parts⟩
    cases parts with
    | none => rfl
    | some ps => exact ssePartEvents_texts _ _ ps

theorem sseCandEvents_content (c : BCandidate) :
    ∀ ev ∈ sseCandEvents c, ev.isContentChunk = true := by
  rcases c with ⟨content, fr, sr⟩
  cases content with
  | none => intro ev hev; simp [sseCandEvents] at hev
  | some ct =>
    rcases ct with ⟨role, parts⟩
    cases parts with
    | none => intro ev hev; simp [sseCandEvents] at hev
    | some ps => exact ssePartEvents_content _ _ ps

theorem sseCandListEvents_texts (cs : List BCandidate) :
    (sseCandListEvents cs).map SseEvent.textOf =
      (candListParts cs).filterMap fun p => p.text := by
  induction cs with
  | nil => rfl
  | cons c cs ih =>
    simp only [sseCandListEvents, candListParts, List.map_append, List.filterMap_append]
    rw [sseCandEvents_texts, ih]

theorem sseCandListEvents_content (cs : List BCandidate) :
    ∀ ev ∈ sseCandListEvents cs, ev.isContentChunk = true := by
  induction cs with
  | nil => intro ev hev; simp [sseCandListEvents] at hev
  | cons c cs ih =>
    intro ev hev
    rcases List.mem_append.mp hev with h | h
    · exact sseCandEvents_content c ev h
    · exact ih ev h

theorem sseItemEvents_texts (it : GenResponse) :
    (sseItemEvents it).map SseEvent.textOf =
      (itemParts it).filterMap fun p => p.text := by
  cases hc : it.candidates with
  | none => simp [sseItemEvents, itemParts, hc, candListParts]
  | some cs =>
    cases cs with
    | nil => simp [sseItemEvents, itemParts, hc, candListParts]
    | cons c cs' =>
      simp only [sseItemEvents, itemParts, hc, Option.getD_some]
      rw [if_pos (by simp)]
      exact sseCandListEvents_texts (c :: cs')

theorem sseItemEvents_content (it : GenResponse) :
    ∀ ev ∈ sseItemEvents it, ev.isContentChunk = true := by
  cases hc : it.candidates with
  | none => intro ev hev; simp [sseItemEvents, hc] at hev
  | some cs =>
    cases cs with
    | nil => intro ev hev; simp [sseItemEvents, hc] at hev
    | cons c cs' =>
      intro ev hev
      simp only [sseItemEvents, hc] at hev
      rw [if_pos (by simp)] at hev
      exact sseCandListEvents_content (c :: cs') ev hev

theorem sseRelayEvents_texts (items : List GenResponse) :
    (sseRelayEvents items).map SseEvent.textOf = sseStreamTexts items := by
  induction items with
  | nil => rfl
  | cons it rest ih =>
    simp only [sseRelayEvents, sseStreamTexts, streamParts,
      List.map_append, List.filterMap_append] at *
    rw [sseItemEvents_texts, ih]

theorem sseRelayEvents_content (items : List GenResponse) :
    ∀ ev ∈ sseRelayEvents items, ev.isContentChunk = true := by
  induction items with
  | nil => intro ev hev; simp [sseRelayEvents] at hev
  | cons it rest ih =>
    intro ev hev
    rcases List.mem_append.mp hev with h | h
    · exact sseItemEvents_content it ev h
    · exact ih ev h

theorem sseRelayEvents_length (items : List GenResponse) :
    (sseRelayEvents items).length = stringTextPartCount items := by
  have h := congrArg List.length (sseRelayEvents_texts items)
  rw [List.length_map] at h
  rw [h, sseStreamTexts, length_filterMap_eq_countP, stringTextPartCount]

/-- Claim C9 (confirmed). For every request with a non-empty prompt, the
Request Mapper output is the history copied verbatim (order preserved:
the first `len(history)` entries are the history items unchanged)
followed by exactly one appended `{role: user, parts: [{text: prompt}]}`
turn; the output length is `len(history) + 1`. This holds for the gRPC
mapper (`mapProtoHistoryToVertex` plus the append) and for the HTTP
handler's contents construction. -/
theorem claim_C9_request_mapper :
    ∀ (prompt : String) (history : List ProtoHistoryItem)
      (jsonHistory : Option (List ReqContent)),
      prompt.isEmpty = false →
        grpcContents prompt history = history.map protoToContent ++ [userTurn prompt] ∧
        (grpcContents prompt history).length = history.length + 1 ∧
        (grpcContents prompt history).take history.length = history.map protoToContent ∧
        (grpcContents prompt history).getLast? = some (userTurn prompt) ∧
        httpContents prompt jsonHistory = jsonHistory.getD [] ++ [userTurn prompt] ∧
        (httpContents prompt jsonHistory).length = (jsonHistory.getD []).length + 1 := by
  intro prompt history jsonHistory _
  have heq : grpcContents prompt history =
      history.map protoToContent ++ [userTurn prompt] := by
    rw [grpcContents, mapProtoHistoryToVertex_eq_map]
  refine ⟨heq, ?_, ?_, ?_, rfl, ?_⟩
  · rw [heq]
    simp
  · rw [heq]
    have := List.take_left (history.map protoToContent) [userTurn prompt]
    rwa [List.length_map] at this
  · rw [heq]
    exact List.getLast?_concat _
  · rw [httpContents]
    simp

/-- Claim C9 (witness): the mapper applied to prompt `"hi"` and a
one-item history. -/
theorem claim_C9_witness :
    ("hi" : String).isEmpty = false ∧
    grpcContents "hi" [{ role := "user", parts := [{ text := "earlier" }] }] =
      [protoToContent { role := "user", parts := [{ text := "earlier" }] }, userTurn "hi"] :=
  ⟨by decide,
   by
     have h := (claim_C9_request_mapper "hi"
       [{ role := "user", parts := [{ text := "earlier" }] }] none (by decide)).1
     simpa using h⟩

/-- Claim C7 (confirmed). On a server whose expected key is configured:
a request whose key is missing or different is answered unauthenticated
(HTTP `401`, gRPC `UNAUTHENTICATED`) by all four operations with nothing
sent to the backend; an authenticated request with an absent or empty
prompt is answered invalid-argument (HTTP `400`, gRPC
`INVALID_ARGUMENT`) by all four operations, again with nothing sent to
the backend. -/
theorem claim_C7_fail_fast :
    ∀ (cfg : Config) (e : String), cfg.expectedApiKey = some e → e.isEmpty = false →
      (∀ (key prompt : Option String) (history : Option (List ReqContent))
         (b : BackendUnary) (bs : BackendStream) (w : Bool),
        key ≠ some e →
          ((httpChat cfg key prompt history b).response.status = 401 ∧
           (httpChat cfg key prompt history b).sentToBackend = none) ∧
          ((httpStreamChat cfg key prompt history bs w).reply =
             .rejected 401 ⟨none, some "Unauthorized: Invalid or missing API Key"⟩ ∧
           (httpStreamChat cfg key prompt history bs w).sentToBackend = none)) ∧
      (∀ (mkey : List String) (prompt : String) (history : List ProtoHistoryItem)
         (b : BackendUnary) (bs : BackendStream) (w : Bool),
        mkey.head? ≠ some e →
          ((chat cfg mkey prompt history b).reply =
             .err .UNAUTHENTICATED "Invalid or missing API Key" ∧
           (chat cfg mkey prompt history b).sentToBackend = none) ∧
          ((streamChat cfg mkey prompt history bs w).emittedError =
             some (.UNAUTHENTICATED, "Invalid or missing API Key") ∧
           (streamChat cfg mkey prompt history bs w).written = [] ∧
           (streamChat cfg mkey prompt history bs w).sentToBackend = none)) ∧
      (∀ (prompt : Option String) (history : Option (List ReqContent))
         (b : BackendUnary) (bs : BackendStream) (w : Bool),
        (prompt = none ∨ prompt = some "") →
          ((httpChat cfg (some e) prompt history b).response.status = 400 ∧
           (httpChat cfg (some e) prompt history b).sentToBackend = none) ∧
          ((httpStreamChat cfg (some e) prompt history bs w).reply =
             .rejected 400 ⟨none, some "Missing prompt in request body"⟩ ∧
           (httpStreamChat cfg (some e) prompt history bs w).sentToBackend = none)) ∧
      (∀ (mkey : List String) (history : List ProtoHistoryItem)
         (b : BackendUnary) (bs : BackendStream) (w : Bool),
        mkey.head? = some e →
          ((chat cfg mkey "" history b).reply = .err .INVALID_ARGUMENT "Missing prompt" ∧
           (chat cfg mkey "" history b).sentToBackend = none) ∧
          ((streamChat cfg mkey "" history bs w).emittedError =
             some (.INVALID_ARGUMENT, "Missing prompt") ∧
           (streamChat cfg mkey "" history bs w).sentToBackend = none)) := by
  intro cfg e he hne
  refine ⟨?_, ?_, ?_, ?_⟩
  · intro key prompt history b bs w hk
    have hg := apiKeyMiddleware_unauthorized he hne hk
    exact ⟨⟨by simp [httpChat, hg], by simp [httpChat, hg]⟩,
           ⟨by simp [httpStreamChat, hg], by simp [httpStreamChat, hg]⟩⟩
  · intro mkey prompt history b bs w hk
    have hg := checkApiKey_eq_false he hk
    exact ⟨⟨by simp [chat, hg], by simp [chat, hg]⟩,
           ⟨by simp [streamChat, hg], by simp [streamChat, hg],
            by simp [streamChat, hg]⟩⟩
  · intro prompt history b bs w hp
    have hg := apiKeyMiddleware_pass he hne
    rcases hp with hp | hp <;> subst hp
    · exact ⟨⟨by simp [httpChat, hg], by simp [httpChat, hg]⟩,
             ⟨by simp [httpStreamChat, hg], by simp [httpStreamChat, hg]⟩⟩
    · exact ⟨⟨by simp [httpChat, hg, String.isEmpty], by simp [httpChat, hg, String.isEmpty]⟩,
             ⟨by simp [httpStreamChat, hg, String.isEmpty],
              by simp [httpStreamChat, hg, String.isEmpty]⟩⟩
  · intro mkey history b bs w hk
    have hg := checkApiKey_eq_true he hk
    exact ⟨⟨by simp [chat, hg, String.isEmpty], by simp [chat, hg, String.isEmpty]⟩,
           ⟨by simp [streamChat, hg, String.isEmpty],
            by simp [streamChat, hg, String.isEmpty]⟩⟩

/-- Claim C7 (witness): on `exCfg`, a keyless HTTP unary request is
answered `401` with nothing sent to the backend, and an authenticated
gRPC unary request with empty prompt is answered `INVALID_ARGUMENT` with
nothing sent to the backend. -/
theorem claim_C7_witness :
    exCfg.expectedApiKey = some "secret" ∧
    (httpChat exCfg none (some "hi") none (.ret none)).response.status = 401 ∧
    (httpChat exCfg none (some "hi") none (.ret none)).sentToBackend = none ∧
    (chat exCfg ["secret"] "" [] (.ret none)).reply =
      .err .INVALID_ARGUMENT "Missing prompt" :=
  ⟨rfl,
   (((claim_C7_fail_fast exCfg "secret" rfl rfl).1 none (some "hi") none (.ret none)
      (.finite [] exAggregated) false (by decide)).1).1,
   (((claim_C7_fail_fast exCfg "secret" rfl rfl).1 none (some "hi") none (.ret none)
      (.finite [] exAggregated) false (by decide)).1).2,
   (((claim_C7_fail_fast exCfg "secret" rfl rfl).2.2.2 ["secret"] [] (.ret none)
      (.finite [] exAggregated) false (by decide)).1).1⟩

/-- Claim C3 (counterexample). The claim fixes one number N of
"text-bearing parts" and asserts both relays emit exactly N non-final
chunks. At `exStreamC3` — a single part whose text is the empty string —
the stream has 1 part with string text and 0 parts with non-empty text,
yet the gRPC relay emits 0 non-final chunks (its `if (part.text)` skips
empty strings) while the SSE relay emits 1 (its
`typeof part.text === 'string'` keeps them): no single N fits both. -/
theorem claim_C3_counterexample :
    stringTextPartCount exStreamC3 = 1 ∧
    nonEmptyTextPartCount exStreamC3 = 0 ∧
    (grpcRelayChunks exStreamC3).length = 0 ∧
    (sseRelayEvents exStreamC3).length = 1 := by
  decide

/-- Claim C3 (amended). For every finite backend stream: the gRPC relay
emits one non-final chunk per part with a non-empty string text, and the
SSE relay one content event per part with a string text (empty strings
included), each in encounter order with the texts preserved; afterwards
each relay emits exactly one terminal element — the gRPC final chunk
with empty text and the aggregated response's first candidate's finish
reason (default `"STOP"` when unavailable), the SSE `[DONE]` sentinel
with that finish reason — as the last element of the output, and nothing
after it. -/
theorem claim_C3_amended :
    ∀ (items : List GenResponse) (agg : GenResponse),
      ((grpcRelayChunks items).map (fun c => c.text_chunk) = grpcStreamTexts items ∧
       (grpcRelayChunks items).length = nonEmptyTextPartCount items ∧
       (∀ c ∈ grpcRelayChunks items, c.is_final_chunk = false)) ∧
      ((sseRelayEvents items).map SseEvent.textOf = sseStreamTexts items ∧
       (sseRelayEvents items).length = stringTextPartCount items ∧
       (∀ ev ∈ sseRelayEvents items, ev.isContentChunk = true)) ∧
      (agg.candidates = none →
        grpcFinalReason agg = "STOP" ∧ httpFinalReason agg = "STOP") ∧
      (∀ (cfg : Config) (mkey : List String) (prompt : String)
         (history : List ProtoHistoryItem) (w : Bool),
        checkApiKey cfg mkey = true → prompt.isEmpty = false →
          (streamChat cfg mkey prompt history (.finite items agg) w).written =
            grpcRelayChunks items ++ [grpcFinalChunk agg] ∧
          (streamChat cfg mkey prompt history (.finite items agg) w).written.countP
              (fun c => c.is_final_chunk) = 1 ∧
          (streamChat cfg mkey prompt history (.finite items agg) w).written.getLast? =
            some (grpcFinalChunk agg) ∧
          (grpcFinalChunk agg).text_chunk = "" ∧
          (grpcFinalChunk agg).finish_reason_field = some (grpcFinalReason agg)) ∧
      (∀ (cfg : Config) (e prompt : String) (jsonHistory : Option (List ReqContent)) (w : Bool),
        cfg.expectedApiKey = some e → e.isEmpty = false → prompt.isEmpty = false →
          (httpStreamChat cfg (some e) (some prompt) jsonHistory (.finite items agg) w).reply =
            .streamed (sseRelayEvents items ++ [.done (httpFinalReason agg)]) true ∧
          (sseRelayEvents items ++ [SseEvent.done (httpFinalReason agg)]).countP
              (fun ev => !ev.isContentChunk) = 1 ∧
          (sseRelayEvents items ++ [SseEvent.done (httpFinalReason agg)]).getLast? =
            some (.done (httpFinalReason agg))) := by
  intro items agg
  refine ⟨⟨grpcRelayChunks_texts items, grpcRelayChunks_length items,
           grpcRelayChunks_nonfinal items⟩,
          ⟨sseRelayEvents_texts items, sseRelayEvents_length items,
           sseRelayEvents_content items⟩, ?_, ?_, ?_⟩
  · intro h
    exact ⟨by simp [grpcFinalReason, h], by simp [httpFinalReason, h]⟩
  · intro cfg mkey prompt history w h1 h2
    have hw : (streamChat cfg mkey prompt history (.finite items agg) w).written =
        grpcRelayChunks items ++ [grpcFinalChunk agg] := by
      simp [streamChat, h1, h2]
    refine ⟨hw, ?_, ?_, rfl, rfl⟩
    · rw [hw, List.countP_append]
      have h0 : (grpcRelayChunks items).countP (fun c => c.is_final_chunk) = 0 :=
        List.countP_eq_zero.mpr fun c hc => by
          simp [grpcRelayChunks_nonfinal items c hc]
      rw [h0]
      simp [grpcFinalChunk]
    · rw [hw]
      exact List.getLast?_concat _
  · intro cfg e prompt jsonHistory w he hne hp
    refine ⟨?_, ?_, ?_⟩
    · simp [httpStreamChat, apiKeyMiddleware_pass he hne, hp]
    · rw [List.countP_append]
      have h0 : (sseRelayEvents items).countP (fun ev => !ev.isContentChunk) = 0 :=
        List.countP_eq_zero.mpr fun ev hev => by
          simp [sseRelayEvents_content items ev hev]
      rw [h0]
      simp [SseEvent.isContentChunk]
    · exact List.getLast?_concat _

/-- Claim C3 (witness): the amended theorem applied on `exCfg` to the
one-part stream `exStreamHi` with aggregated response `exAggregated`. -/
theorem claim_C3_witness :
    checkApiKey exCfg ["secret"] = true ∧
    (streamChat exCfg ["secret"] "hi" [] (.finite exStreamHi exAggregated) false).written =
      grpcRelayChunks exStreamHi ++ [grpcFinalChunk exAggregated] :=
  ⟨by decide,
   ((claim_C3_amended exStreamHi exAggregated).2.2.2.1 exCfg ["secret"] "hi" [] false
      (by decide) (by decide)).1⟩

/-- Claim C6 (counterexample). The claim says the output stream is
closed even when the best-effort error write fails, in both variants. On
`exCfg`, an authenticated HTTP streaming request whose backend iteration
throws and whose error-event write also throws ends with
`res.end()` never called (the outcome's `ended` flag is `false`): the
`res.write` and `res.end()` share one `try`, so the throw skips the
close. The gRPC variant does close in the same situation. -/
theorem claim_C6_counterexample :
    (httpStreamChat exCfg (some "secret") (some "hi") none
        (.throwsAfter [] "boom") true).reply = .streamed [] false ∧
    (streamChat exCfg ["secret"] "hi" [] (.throwsAfter [] "boom") true).ended = true := by
  decide

/-- Claim C6 (amended). When the backend stream throws mid-relay, each
variant attempts exactly one best-effort write of a final error chunk.
The gRPC relay always runs `call.end()`, even when that write fails; the
SSE relay ends the response only when the error-event write succeeds —
when the write itself throws, the response is left unended. -/
theorem claim_C6_amended :
    (∀ (cfg : Config) (mkey : List String) (prompt : String)
       (history : List ProtoHistoryItem) (bs : BackendStream) (w : Bool),
      (streamChat cfg mkey prompt history bs w).ended = true) ∧
    (∀ (cfg : Config) (mkey : List String) (prompt : String)
       (history : List ProtoHistoryItem) (items : List GenResponse)
       (msg : String) (w : Bool),
      checkApiKey cfg mkey = true → prompt.isEmpty = false →
        (streamChat cfg mkey prompt history (.throwsAfter items msg) w).written =
          grpcRelayChunks items ++ (if w then [] else [grpcErrorChunk])) ∧
    (∀ (cfg : Config) (e prompt : String) (jsonHistory : Option (List ReqContent))
       (items : List GenResponse) (msg : String) (w : Bool),
      cfg.expectedApiKey = some e → e.isEmpty = false → prompt.isEmpty = false →
        (httpStreamChat cfg (some e) (some prompt) jsonHistory
            (.throwsAfter items msg) w).reply =
          .streamed (sseRelayEvents items ++
            (if w then [] else [.err "Stream processing error"])) (!w)) := by
  refine ⟨?_, ?_, ?_⟩
  · intro cfg mkey prompt history bs w
    cases h1 : checkApiKey cfg mkey with
    | false => simp [streamChat, h1]
    | true =>
      cases h2 : prompt.isEmpty with
      | true => simp [streamChat, h1, h2]
      | false => cases bs <;> simp [streamChat, h1, h2]
  · intro cfg mkey prompt history items msg w h1 h2
    simp [streamChat, h1, h2]
  · intro cfg e prompt jsonHistory items msg w he hne hp
    simp [httpStreamChat, apiKeyMiddleware_pass he hne, hp]

/-- Claim C6 (witness): the amended theorem applied on `exCfg` to a
throwing backend stream whose error write succeeds. -/
theorem claim_C6_witness :
    checkApiKey exCfg ["secret"] = true ∧
    (streamChat exCfg ["secret"] "hi" [] (.throwsAfter [] "x") false).ended = true ∧
    (streamChat exCfg ["secret"] "hi" [] (.throwsAfter [] "x") false).written =
      grpcRelayChunks [] ++ (if false then [] else [grpcErrorChunk]) :=
  ⟨by decide,
   claim_C6_amended.1 exCfg ["secret"] "hi" [] (.throwsAfter [] "x") false,
   claim_C6_amended.2.1 exCfg ["secret"] "hi" [] [] "x" false (by decide) (by decide)⟩

end VertexProxy
